import Mathlib

/-
Verification of the contact-form script of portfolio-M322 (src/script.js).

The file holds two near-identical variants of the same script: a baseline
version and an accessibility-enhanced version.  Both are embedded below,
the baseline in namespace `Baseline` and the enhanced one in namespace
`Enhanced`.  DOM elements are modelled as records of the attributes the
script reads and writes (value, class list, attributes, text content,
display style, required flag); regular-expression matching against the
per-country `data-pattern` attribute is kept abstract as a parameter
`regexTest : String → String → Bool`, since those patterns live in the
HTML, not in the script.  The two concrete regular expressions written in
the script itself (the email pattern and the character classes used to
clean phone input) are translated to executable character-level functions.
-/

/-- The character class JS `\s` (and `String.prototype.trim`) accepts:
whitespace and line-terminator code points per ECMA-262. -/
def isJsWhitespace (c : Char) : Bool :=
  let n := c.toNat
  n == 0x9 || n == 0xA || n == 0xB || n == 0xC || n == 0xD || n == 0x20 ||
  n == 0xA0 || n == 0x1680 || (0x2000 ≤ n && n ≤ 0x200A) ||
  n == 0x2028 || n == 0x2029 || n == 0x202F || n == 0x205F ||
  n == 0x3000 || n == 0xFEFF

/-- JS `String.prototype.trim`: strip leading and trailing whitespace. -/
def jsTrim (s : String) : String :=
  String.mk (((s.toList.dropWhile isJsWhitespace).reverse.dropWhile isJsWhitespace).reverse)

/-- `classList.add`: appends the token unless it is already present. -/
def classAdd (cs : List String) (c : String) : List String :=
  if c ∈ cs then cs else cs ++ [c]

/-- `classList.remove`: drops every occurrence of the token. -/
def classRemove (cs : List String) (c : String) : List String :=
  cs.filter (fun x => x != c)

/-- `setAttribute`: overwrite the attribute if present, else append it. -/
def setAttr (attrs : List (String × String)) (key val : String) : List (String × String) :=
  if attrs.any (fun p => p.1 == key) then
    attrs.map (fun p => if p.1 == key then (key, val) else p)
  else attrs ++ [(key, val)]

/-- `removeAttribute`: drop the attribute. -/
def removeAttr (attrs : List (String × String)) (key : String) : List (String × String) :=
  attrs.filter (fun p => p.1 != key)

/-- `if (errorMessage) errorElement.textContent = errorMessage`: the text is
overwritten only when the message is present and non-empty (JS truthiness
of strings). -/
def applyErrorMessage (current : String) (errorMessage : Option String) : String :=
  match errorMessage with
  | some msg => if msg == "" then current else msg
  | none => current

/-- A character admitted by the class `[^\s@]` of the email pattern. -/
def emailAtomChar (c : Char) : Bool :=
  !(isJsWhitespace c) && !(c == '@')

/-- `cs` matches `[^\s@]+\.[^\s@]+` (anchored on both sides): some '.' splits
it into two non-empty runs of `[^\s@]` characters. -/
def matchesEmailTail (cs : List Char) : Bool :=
  (List.range cs.length).any fun i =>
    decide (0 < i) && decide (i + 1 < cs.length) && (cs.getD i ' ' == '.') &&
    (cs.take i).all emailAtomChar && ((cs.drop (i + 1)).all emailAtomChar)

/-- The email regular expression `^[^\s@]+@[^\s@]+\.[^\s@]+$` of the script,
as an executable predicate: an '@' splits the string into a non-empty run of
`[^\s@]` characters and a tail matching `[^\s@]+\.[^\s@]+`. -/
def matchesEmailPattern (email : String) : Bool :=
  let cs := email.toList
  (List.range cs.length).any fun j =>
    (cs.getD j ' ' == '@') && decide (0 < j) &&
    (cs.take j).all emailAtomChar && matchesEmailTail (cs.drop (j + 1))

/-- `phoneNumber.replace(/[\s\-\(\)\.]/g, '')`: drop whitespace, hyphens,
parentheses and dots. -/
def stripPhoneSeparators (s : String) : String :=
  String.mk (s.toList.filter fun c =>
    !(isJsWhitespace c || c == '-' || c == '(' || c == ')' || c == '.'))

/-- `value.replace(/[^\d\s]/g, '')`: keep only digits and whitespace. -/
def cleanPhoneText (s : String) : String :=
  String.mk (s.toList.filter fun c => c.isDigit || isJsWhitespace c)

/-- A DOM element, restricted to the attributes the script reads or writes. -/
structure DomElem where
  value : String := ""
  /-- The value the control returns to on `form.reset()`. -/
  defaultValue : String := ""
  classes : List String := []
  attrs : List (String × String) := []
  textContent : String := ""
  display : String := ""
  required : Bool := false
deriving DecidableEq, Repr

/-- The country-code select, reduced to what `validatePhoneNumber` reads:
the selected option's `data-pattern` attribute (`getAttribute` yields null,
here `none`, when the attribute is absent). -/
structure SelectElement where
  dataPattern : Option String := none
deriving DecidableEq, Repr

/-- One entry of the `fieldValidators` configuration object. -/
structure ValidatorConfig where
  validator : String → Bool
  errorMessage : String

/-- The `fieldValidators` configuration object: the five text fields, plus
the email field's distinct empty-value message. -/
structure FieldValidatorTable where
  firstName : ValidatorConfig
  lastName : ValidatorConfig
  email : ValidatorConfig
  emailEmptyMessage : String
  messageSubject : ValidatorConfig
  message : ValidatorConfig

/-- The part of the document the submit handler touches.  Every referenced
field and error element is present (the claims under verification presuppose
this).  `announcements` records the messages the enhanced variant sends to
the screen-reader announcer. -/
structure FormState where
  firstName : DomElem
  firstNameError : DomElem
  lastName : DomElem
  lastNameError : DomElem
  email : DomElem
  emailError : DomElem
  messageSubject : DomElem
  messageSubjectError : DomElem
  message : DomElem
  messageError : DomElem
  phoneInput : DomElem
  phoneError : DomElem
  contactPhoneChecked : Bool
  /-- The phone radio button's `defaultChecked`, restored by `form.reset()`. -/
  contactPhoneDefaultChecked : Bool
  countryCode : SelectElement
  /-- The select's default selection, restored by `form.reset()`. -/
  countryCodeDefault : SelectElement
  modalOverlay : DomElem
  successModal : DomElem
  announcements : List String := []
deriving Repr

/-- What one run of the submit listener produces. -/
structure SubmitOutcome where
  state : FormState
  /-- `event.preventDefault()` was called. -/
  defaultPrevented : Bool
  /-- `event.stopPropagation()` was called. -/
  propagationStopped : Bool
  /-- The handler's final `isValid` flag. -/
  isValid : Bool
deriving Repr

/-- The part of the document the contact-method change handlers touch. -/
structure PhoneUIState where
  phoneGroup : DomElem
  phoneInput : DomElem
  phoneError : DomElem
  announcements : List String := []
deriving Repr

namespace Baseline

/-- `isValidEmail` (baseline): test the email pattern. -/
def isValidEmail (email : String) : Bool :=
  matchesEmailPattern email

/-- `validatePhoneNumber` (baseline): strip separators, read the selected
option's `data-pattern`, fail on a missing (or empty, JS-falsy) pattern,
else test the pattern against the cleaned number. -/
def validatePhoneNumber (regexTest : String → String → Bool) (phoneNumber : String)
    (countryCodeSelect : SelectElement) : Bool :=
  let cleanNumber := stripPhoneSeparators phoneNumber
  match countryCodeSelect.dataPattern with
  | none => false
  | some pattern => if pattern == "" then false else regexTest pattern cleanNumber

/-- The body of `validateField` (baseline) once both elements are present. -/
def validateFieldCore (field errorElement : DomElem) (validationFn : String → Bool)
    (errorMessage : Option String) : DomElem × DomElem × Bool :=
  if validationFn field.value then
    ({ field with classes := classAdd (classRemove field.classes "is-invalid") "is-valid" },
     { errorElement with classes := classRemove errorElement.classes "d-block" },
     true)
  else
    ({ field with classes := classRemove (classAdd field.classes "is-invalid") "is-valid" },
     { errorElement with
         textContent := applyErrorMessage errorElement.textContent errorMessage,
         classes := classAdd errorElement.classes "d-block" },
     false)

/-- `validateField` (baseline): `if (!field || !errorElement) return true`,
else run the core; returns the updated elements and the verdict. -/
def validateField (field errorElement : Option DomElem) (validationFn : String → Bool)
    (errorMessage : Option String) : Option DomElem × Option DomElem × Bool :=
  match field, errorElement with
  | some f, some e =>
    let r := validateFieldCore f e validationFn errorMessage
    (some r.1, some r.2.1, r.2.2)
  | f, e => (f, e, true)

/-- `clearValidation` (baseline), for present elements: drop the validation
classes from the field and hide the error element. -/
def clearValidation (field errorElement : DomElem) : DomElem × DomElem :=
  ({ field with classes := classRemove (classRemove field.classes "is-invalid") "is-valid" },
   { errorElement with classes := classRemove errorElement.classes "d-block" })

/-- The `fieldValidators` configuration object (baseline). -/
def fieldValidators : FieldValidatorTable where
  firstName := ⟨fun value => jsTrim value != "", "Please provide your first name."⟩
  lastName := ⟨fun value => jsTrim value != "", "Please provide your last name."⟩
  email := ⟨fun value => jsTrim value != "" && isValidEmail value,
            "Please provide a valid email address."⟩
  emailEmptyMessage := "Please provide your email address."
  messageSubject := ⟨fun value => jsTrim value != "", "Please provide a subject."⟩
  message := ⟨fun value => jsTrim value != "", "Please write your message."⟩

/-- The validation pass of the submit listener (baseline): the five text
fields in `Object.keys(fieldValidators)` order — with the email empty-value
special case — then, when the phone contact method is checked, the phone
field.  Returns the updated document and the accumulated `isValid` flag. -/
def runValidators (regexTest : String → String → Bool) (s : FormState) :
    FormState × Bool :=
  let r1 := validateFieldCore s.firstName s.firstNameError
      fieldValidators.firstName.validator (some fieldValidators.firstName.errorMessage)
  let r2 := validateFieldCore s.lastName s.lastNameError
      fieldValidators.lastName.validator (some fieldValidators.lastName.errorMessage)
  let r3 :=
    if jsTrim s.email.value == "" then
      validateFieldCore s.email s.emailError (fun _ => false)
        (some fieldValidators.emailEmptyMessage)
    else
      validateFieldCore s.email s.emailError
        fieldValidators.email.validator (some fieldValidators.email.errorMessage)
  let r4 := validateFieldCore s.messageSubject s.messageSubjectError
      fieldValidators.messageSubject.validator (some fieldValidators.messageSubject.errorMessage)
  let r5 := validateFieldCore s.message s.messageError
      fieldValidators.message.validator (some fieldValidators.message.errorMessage)
  let textValid := r5.2.2 && (r4.2.2 && (r3.2.2 && (r2.2.2 && (r1.2.2 && true))))
  let rp :=
    if s.contactPhoneChecked then
      if jsTrim s.phoneInput.value == "" then
        validateFieldCore s.phoneInput s.phoneError (fun _ => false)
          (some "Please provide your phone number.")
      else
        validateFieldCore s.phoneInput s.phoneError
          (fun value => validatePhoneNumber regexTest value s.countryCode)
          (some "Please provide a valid phone number for the selected country.")
    else (s.phoneInput, s.phoneError, true)
  let isValid := if s.contactPhoneChecked then rp.2.2 && textValid else textValid
  ({ s with
      firstName := r1.1, firstNameError := r1.2.1,
      lastName := r2.1, lastNameError := r2.2.1,
      email := r3.1, emailError := r3.2.1,
      messageSubject := r4.1, messageSubjectError := r4.2.1,
      message := r5.1, messageError := r5.2.1,
      phoneInput := rp.1, phoneError := rp.2.1 },
   isValid)

/-- `form.reset()` on a control followed by the class sweep
`classList.remove('is-valid', 'is-invalid')` (baseline). -/
def resetControl (e : DomElem) : DomElem :=
  { e with value := e.defaultValue,
           classes := classRemove (classRemove e.classes "is-valid") "is-invalid" }

/-- The `.invalid-feedback` sweep `classList.remove('d-block')` (baseline). -/
def resetFeedback (e : DomElem) : DomElem :=
  { e with classes := classRemove e.classes "d-block" }

/-- The success branch of the submit listener (baseline): show the modal
overlay and the success modal, reset the form, sweep the validation classes
and hide every `.invalid-feedback` element. -/
def successActions (s : FormState) : FormState :=
  { s with
      modalOverlay := { s.modalOverlay with display := "block" },
      successModal := { s.successModal with display := "block" },
      firstName := resetControl s.firstName,
      lastName := resetControl s.lastName,
      email := resetControl s.email,
      messageSubject := resetControl s.messageSubject,
      message := resetControl s.message,
      phoneInput := resetControl s.phoneInput,
      firstNameError := resetFeedback s.firstNameError,
      lastNameError := resetFeedback s.lastNameError,
      emailError := resetFeedback s.emailError,
      messageSubjectError := resetFeedback s.messageSubjectError,
      messageError := resetFeedback s.messageError,
      phoneError := resetFeedback s.phoneError,
      contactPhoneChecked := s.contactPhoneDefaultChecked,
      countryCode := s.countryCodeDefault }

/-- The submit listener (baseline): `preventDefault`, `stopPropagation`,
run every validator, and on success show the modal and reset the form. -/
def submitHandler (regexTest : String → String → Bool) (s : FormState) : SubmitOutcome :=
  let r := runValidators regexTest s
  { state := if r.2 then successActions r.1 else r.1,
    defaultPrevented := true,
    propagationStopped := true,
    isValid := r.2 }

/-- The `contactPhone` change listener (baseline): when checked, show the
phone group and mark the phone input required. -/
def contactPhoneChange (checked : Bool) (ui : PhoneUIState) : PhoneUIState :=
  if checked then
    { ui with
        phoneGroup := { ui.phoneGroup with display := "block" },
        phoneInput := { ui.phoneInput with required := true } }
  else ui

/-- The `contactEmail` change listener (baseline): when checked, hide the
phone group, drop the required flag and clear the phone validation state. -/
def contactEmailChange (checked : Bool) (ui : PhoneUIState) : PhoneUIState :=
  if checked then
    let cleared := clearValidation { ui.phoneInput with required := false } ui.phoneError
    { ui with
        phoneGroup := { ui.phoneGroup with display := "none" },
        phoneInput := cleared.1,
        phoneError := cleared.2 }
  else ui

/-- The phone `input` listener (baseline): replace the value with its
digit-and-whitespace cleaning. -/
def phoneInputHandler (value : String) : String :=
  cleanPhoneText value

/-- The phone `paste` listener (baseline): clean the pasted text, splice it
over the selection, then dispatch an `input` event (which cleans again). -/
def phonePasteHandler (currentValue : String) (selStart selEnd : Nat)
    (pastedText : String) : String :=
  let cleaned := cleanPhoneText pastedText
  let spliced := String.mk
    (currentValue.toList.take selStart ++ cleaned.toList ++ currentValue.toList.drop selEnd)
  phoneInputHandler spliced

end Baseline

namespace Enhanced

/-- `isValidEmail` (enhanced): identical to the baseline. -/
def isValidEmail (email : String) : Bool :=
  matchesEmailPattern email

/-- `validatePhoneNumber` (enhanced): identical to the baseline. -/
def validatePhoneNumber (regexTest : String → String → Bool) (phoneNumber : String)
    (countryCodeSelect : SelectElement) : Bool :=
  let cleanNumber := stripPhoneSeparators phoneNumber
  match countryCodeSelect.dataPattern with
  | none => false
  | some pattern => if pattern == "" then false else regexTest pattern cleanNumber

/-- The body of `validateField` (enhanced) once both elements are present:
as the baseline, plus the `aria-invalid` attribute. -/
def validateFieldCore (field errorElement : DomElem) (validationFn : String → Bool)
    (errorMessage : Option String) : DomElem × DomElem × Bool :=
  if validationFn field.value then
    ({ field with classes := classAdd (classRemove field.classes "is-invalid") "is-valid",
                  attrs := setAttr field.attrs "aria-invalid" "false" },
     { errorElement with classes := classRemove errorElement.classes "d-block" },
     true)
  else
    ({ field with classes := classRemove (classAdd field.classes "is-invalid") "is-valid",
                  attrs := setAttr field.attrs "aria-invalid" "true" },
     { errorElement with
         textContent := applyErrorMessage errorElement.textContent errorMessage,
         classes := classAdd errorElement.classes "d-block" },
     false)

/-- `validateField` (enhanced): `if (!field || !errorElement) return true`,
else run the core. -/
def validateField (field errorElement : Option DomElem) (validationFn : String → Bool)
    (errorMessage : Option String) : Option DomElem × Option DomElem × Bool :=
  match field, errorElement with
  | some f, some e =>
    let r := validateFieldCore f e validationFn errorMessage
    (some r.1, some r.2.1, r.2.2)
  | f, e => (f, e, true)

/-- `clearValidation` (enhanced), for present elements: as the baseline,
plus removing `aria-invalid` and blanking the error text. -/
def clearValidation (field errorElement : DomElem) : DomElem × DomElem :=
  ({ field with classes := classRemove (classRemove field.classes "is-invalid") "is-valid",
                attrs := removeAttr field.attrs "aria-invalid" },
   { errorElement with classes := classRemove errorElement.classes "d-block",
                       textContent := "" })

/-- The `fieldValidators` configuration object (enhanced): identical to the
baseline. -/
def fieldValidators : FieldValidatorTable where
  firstName := ⟨fun value => jsTrim value != "", "Please provide your first name."⟩
  lastName := ⟨fun value => jsTrim value != "", "Please provide your last name."⟩
  email := ⟨fun value => jsTrim value != "" && isValidEmail value,
            "Please provide a valid email address."⟩
  emailEmptyMessage := "Please provide your email address."
  messageSubject := ⟨fun value => jsTrim value != "", "Please provide a subject."⟩
  message := ⟨fun value => jsTrim value != "", "Please write your message."⟩

/-- The validation pass of the submit listener (enhanced): same shape as
the baseline, through the enhanced `validateFieldCore`. -/
def runValidators (regexTest : String → String → Bool) (s : FormState) :
    FormState × Bool :=
  let r1 := validateFieldCore s.firstName s.firstNameError
      fieldValidators.firstName.validator (some fieldValidators.firstName.errorMessage)
  let r2 := validateFieldCore s.lastName s.lastNameError
      fieldValidators.lastName.validator (some fieldValidators.lastName.errorMessage)
  let r3 :=
    if jsTrim s.email.value == "" then
      validateFieldCore s.email s.emailError (fun _ => false)
        (some fieldValidators.emailEmptyMessage)
    else
      validateFieldCore s.email s.emailError
        fieldValidators.email.validator (some fieldValidators.email.errorMessage)
  let r4 := validateFieldCore s.messageSubject s.messageSubjectError
      fieldValidators.messageSubject.validator (some fieldValidators.messageSubject.errorMessage)
  let r5 := validateFieldCore s.message s.messageError
      fieldValidators.message.validator (some fieldValidators.message.errorMessage)
  let textValid := r5.2.2 && (r4.2.2 && (r3.2.2 && (r2.2.2 && (r1.2.2 && true))))
  let rp :=
    if s.contactPhoneChecked then
      if jsTrim s.phoneInput.value == "" then
        validateFieldCore s.phoneInput s.phoneError (fun _ => false)
          (some "Please provide your phone number.")
      else
        validateFieldCore s.phoneInput s.phoneError
          (fun value => validatePhoneNumber regexTest value s.countryCode)
          (some "Please provide a valid phone number for the selected country.")
    else (s.phoneInput, s.phoneError, true)
  let isValid := if s.contactPhoneChecked then rp.2.2 && textValid else textValid
  ({ s with
      firstName := r1.1, firstNameError := r1.2.1,
      lastName := r2.1, lastNameError := r2.2.1,
      email := r3.1, emailError := r3.2.1,
      messageSubject := r4.1, messageSubjectError := r4.2.1,
      message := r5.1, messageError := r5.2.1,
      phoneInput := rp.1, phoneError := rp.2.1 },
   isValid)

/-- `form.reset()` on a control followed by the enhanced class sweep, which
also removes `aria-invalid`. -/
def resetControl (e : DomElem) : DomElem :=
  { e with value := e.defaultValue,
           classes := classRemove (classRemove e.classes "is-valid") "is-invalid",
           attrs := removeAttr e.attrs "aria-invalid" }

/-- The enhanced `.invalid-feedback` sweep: hide and blank the text. -/
def resetFeedback (e : DomElem) : DomElem :=
  { e with classes := classRemove e.classes "d-block", textContent := "" }

/-- The success branch of the submit listener (enhanced): as the baseline,
plus `aria-hidden` on the modals and a screen-reader announcement.  (Focus
management, which touches no form data, is not modelled.) -/
def successActions (s : FormState) : FormState :=
  { s with
      modalOverlay := { s.modalOverlay with
        display := "block",
        attrs := setAttr s.modalOverlay.attrs "aria-hidden" "false" },
      successModal := { s.successModal with
        display := "block",
        attrs := setAttr s.successModal.attrs "aria-hidden" "false" },
      announcements := s.announcements ++ ["Message sent successfully!"],
      firstName := resetControl s.firstName,
      lastName := resetControl s.lastName,
      email := resetControl s.email,
      messageSubject := resetControl s.messageSubject,
      message := resetControl s.message,
      phoneInput := resetControl s.phoneInput,
      firstNameError := resetFeedback s.firstNameError,
      lastNameError := resetFeedback s.lastNameError,
      emailError := resetFeedback s.emailError,
      messageSubjectError := resetFeedback s.messageSubjectError,
      messageError := resetFeedback s.messageError,
      phoneError := resetFeedback s.phoneError,
      contactPhoneChecked := s.contactPhoneDefaultChecked,
      countryCode := s.countryCodeDefault }

/-- The failure branch of the submit listener (enhanced): announce the
errors.  (Focusing the first invalid field touches no form data and is not
modelled.) -/
def failureActions (s : FormState) : FormState :=
  { s with announcements :=
      s.announcements ++ ["Form contains errors. Please check the fields and try again."] }

/-- The submit listener (enhanced): `preventDefault`, `stopPropagation`,
run every validator, then the success or the failure branch. -/
def submitHandler (regexTest : String → String → Bool) (s : FormState) : SubmitOutcome :=
  let r := runValidators regexTest s
  { state := if r.2 then successActions r.1 else failureActions r.1,
    defaultPrevented := true,
    propagationStopped := true,
    isValid := r.2 }

/-- The `contactPhone` change listener (enhanced): as the baseline, plus
`aria-required` and an announcement. -/
def contactPhoneChange (checked : Bool) (ui : PhoneUIState) : PhoneUIState :=
  if checked then
    { ui with
        phoneGroup := { ui.phoneGroup with display := "block" },
        phoneInput := { ui.phoneInput with
          required := true,
          attrs := setAttr ui.phoneInput.attrs "aria-required" "true" },
        announcements := ui.announcements ++ ["Phone number field is now required"] }
  else ui

/-- The `contactEmail` change listener (enhanced): as the baseline, plus
`aria-required` and an announcement. -/
def contactEmailChange (checked : Bool) (ui : PhoneUIState) : PhoneUIState :=
  if checked then
    let cleared := clearValidation
      { ui.phoneInput with
        required := false,
        attrs := setAttr ui.phoneInput.attrs "aria-required" "false" } ui.phoneError
    { ui with
        phoneGroup := { ui.phoneGroup with display := "none" },
        phoneInput := cleared.1,
        phoneError := cleared.2,
        announcements := ui.announcements ++ ["Phone number field is no longer required"] }
  else ui

/-- The phone `input` listener (enhanced): identical to the baseline. -/
def phoneInputHandler (value : String) : String :=
  cleanPhoneText value

/-- The phone `paste` listener (enhanced): identical to the baseline. -/
def phonePasteHandler (currentValue : String) (selStart selEnd : Nat)
    (pastedText : String) : String :=
  let cleaned := cleanPhoneText pastedText
  let spliced := String.mk
    (currentValue.toList.take selStart ++ cleaned.toList ++ currentValue.toList.drop selEnd)
  phoneInputHandler spliced

end Enhanced

/-- The verdict of the five text-field validators in the order the submit
listener folds them (message, subject, email, last name, first name). -/
def textFieldsVerdict (s : FormState) : Bool :=
  (jsTrim s.message.value != "") && ((jsTrim s.messageSubject.value != "") &&
  ((if jsTrim s.email.value == "" then false
    else (jsTrim s.email.value != "" && matchesEmailPattern s.email.value)) &&
   ((jsTrim s.lastName.value != "") && ((jsTrim s.firstName.value != "") && true))))

/-- The `isValid` flag both submit listeners compute, written out over the
form's contents. -/
def submitVerdict (regexTest : String → String → Bool) (s : FormState) : Bool :=
  if s.contactPhoneChecked then
    (if jsTrim s.phoneInput.value == "" then false
     else match s.countryCode.dataPattern with
          | none => false
          | some pattern =>
              if pattern == "" then false
              else regexTest pattern (stripPhoneSeparators s.phoneInput.value))
    && textFieldsVerdict s
  else textFieldsVerdict s

/-- `clearTimeout(scrollTimeout)`: drop the pending timer named by the
`scrollTimeout` variable, a no-op when it is unset or already fired. -/
def clearScrollTimeout (pending : List Nat) : Option Nat → List Nat
  | none => pending
  | some id => pending.filter (fun x => x != id)

/-- The scroll-debounce state of the enhanced variant: the timers scheduled
by the scroll listener and not yet fired or cleared, the value of the
`scrollTimeout` variable, and a fresh-id counter. -/
structure DebounceState where
  pendingTimers : List Nat
  scrollTimeout : Option Nat
  nextId : Nat
deriving Repr

/-- An event the debounce reacts to: a scroll, or a scheduled timer firing
(running the nav-link update). -/
inductive ScrollEvent where
  | scroll : ScrollEvent
  | fire : Nat → ScrollEvent
deriving Repr

/-- One step of the debounced scroll handling: a scroll event first runs
`clearTimeout(scrollTimeout)`, then `setTimeout` of the nav-link update; a
fire event consumes its pending timer. -/
def scrollStep (st : DebounceState) : ScrollEvent → DebounceState
  | ScrollEvent.scroll =>
      let cleared := clearScrollTimeout st.pendingTimers st.scrollTimeout
      { pendingTimers := cleared ++ [st.nextId],
        scrollTimeout := some st.nextId,
        nextId := st.nextId + 1 }
  | ScrollEvent.fire id =>
      if id ∈ st.pendingTimers then
        { st with pendingTimers := st.pendingTimers.filter (fun x => x != id) }
      else st

/-- Page load: no timer pending, `scrollTimeout` unset. -/
def debounceInit : DebounceState :=
  { pendingTimers := [], scrollTimeout := none, nextId := 0 }

/-- The debounce state after a sequence of events from page load. -/
def scrollRun (events : List ScrollEvent) : DebounceState :=
  events.foldl scrollStep debounceInit

/-- At most one nav-link update pending: no timer, or exactly the one the
`scrollTimeout` variable names. -/
def debounceInv (st : DebounceState) : Prop :=
  st.pendingTimers = [] ∨ ∃ id, st.pendingTimers = [id] ∧ st.scrollTimeout = some id

/-- The six form controls of `t` hold the same values as in `s`. -/
def fieldValuesUnchanged (s t : FormState) : Prop :=
  t.firstName.value = s.firstName.value ∧ t.lastName.value = s.lastName.value ∧
  t.email.value = s.email.value ∧ t.messageSubject.value = s.messageSubject.value ∧
  t.message.value = s.message.value ∧ t.phoneInput.value = s.phoneInput.value

/-- A control as the reset leaves it: back to its default value, with
neither validation class. -/
def controlReset (e : DomElem) : Prop :=
  e.value = e.defaultValue ∧ "is-invalid" ∉ e.classes ∧ "is-valid" ∉ e.classes

/-- An `.invalid-feedback` element hidden. -/
def feedbackHidden (e : DomElem) : Prop :=
  "d-block" ∉ e.classes

/-- The whole form reset: every control at its default value without
validation classes, every feedback element hidden. -/
def formIsReset (s : FormState) : Prop :=
  controlReset s.firstName ∧ controlReset s.lastName ∧ controlReset s.email ∧
  controlReset s.messageSubject ∧ controlReset s.message ∧ controlReset s.phoneInput ∧
  feedbackHidden s.firstNameError ∧ feedbackHidden s.lastNameError ∧
  feedbackHidden s.emailError ∧ feedbackHidden s.messageSubjectError ∧
  feedbackHidden s.messageError ∧ feedbackHidden s.phoneError

/-- A concrete regex matcher for witnesses: every pattern accepts. -/
def sampleRegexAny : String → String → Bool := fun _ _ => true

/-- A concrete document for witnesses: fresh elements, every text field
filled, email contact method selected. -/
def sampleForm : FormState where
  firstName := { value := "John" }
  firstNameError := {}
  lastName := { value := "Doe" }
  lastNameError := {}
  email := { value := "john@doe.com" }
  emailError := {}
  messageSubject := { value := "Subject" }
  messageSubjectError := {}
  message := { value := "Message" }
  messageError := {}
  phoneInput := { value := "123 456" }
  phoneError := {}
  contactPhoneChecked := false
  contactPhoneDefaultChecked := false
  countryCode := { dataPattern := some "pattern" }
  countryCodeDefault := { dataPattern := some "pattern" }
  modalOverlay := {}
  successModal := {}

/-- `sampleForm` with the first-name field blank. -/
def sampleFormEmptyFirstName : FormState :=
  { sampleForm with firstName := {} }

/-- `sampleForm` with the phone contact method selected while the selected
country option has no `data-pattern` attribute. -/
def sampleFormNoPattern : FormState :=
  { sampleForm with contactPhoneChecked := true, countryCode := {} }

theorem mem_classAdd_iff (a c : String) (cs : List String) :
    a ∈ classAdd cs c ↔ (a ∈ cs ∨ a = c) := by
  unfold classAdd
  by_cases h : c ∈ cs
  · simp only [if_pos h]
    constructor
    · exact Or.inl
    · rintro (h' | rfl)
      · exact h'
      · exact h
  · simp [if_neg h]

theorem mem_classRemove_iff (a c : String) (cs : List String) :
    a ∈ classRemove cs c ↔ (a ∈ cs ∧ a ≠ c) := by
  unfold classRemove
  simp [List.mem_filter]

theorem baseline_validateFieldCore_verdict (f e : DomElem) (fn : String → Bool)
    (m : Option String) : (Baseline.validateFieldCore f e fn m).2.2 = fn f.value := by
  unfold Baseline.validateFieldCore
  cases h : fn f.value <;> simp [h]

theorem baseline_validateFieldCore_value (f e : DomElem) (fn : String → Bool)
    (m : Option String) : (Baseline.validateFieldCore f e fn m).1.value = f.value := by
  unfold Baseline.validateFieldCore
  cases h : fn f.value <;> simp [h]

theorem enhanced_validateFieldCore_verdict (f e : DomElem) (fn : String → Bool)
    (m : Option String) : (Enhanced.validateFieldCore f e fn m).2.2 = fn f.value := by
  unfold Enhanced.validateFieldCore
  cases h : fn f.value <;> simp [h]

theorem enhanced_validateFieldCore_value (f e : DomElem) (fn : String → Bool)
    (m : Option String) : (Enhanced.validateFieldCore f e fn m).1.value = f.value := by
  unfold Enhanced.validateFieldCore
  cases h : fn f.value <;> simp [h]

theorem baseline_runValidators_snd (rt : String → String → Bool) (s : FormState) :
    (Baseline.runValidators rt s).2 = submitVerdict rt s := by
  unfold Baseline.runValidators submitVerdict textFieldsVerdict
    Baseline.validatePhoneNumber Baseline.fieldValidators Baseline.isValidEmail
  by_cases hc : s.contactPhoneChecked <;>
    by_cases he : jsTrim s.email.value == "" <;>
      by_cases hp : jsTrim s.phoneInput.value == "" <;>
        simp [hc, he, hp, baseline_validateFieldCore_verdict]

theorem enhanced_runValidators_snd (rt : String → String → Bool) (s : FormState) :
    (Enhanced.runValidators rt s).2 = submitVerdict rt s := by
  unfold Enhanced.runValidators submitVerdict textFieldsVerdict
    Enhanced.validatePhoneNumber Enhanced.fieldValidators Enhanced.isValidEmail
  by_cases hc : s.contactPhoneChecked <;>
    by_cases he : jsTrim s.email.value == "" <;>
      by_cases hp : jsTrim s.phoneInput.value == "" <;>
        simp [hc, he, hp, enhanced_validateFieldCore_verdict]

theorem baseline_runValidators_unchanged (rt : String → String → Bool) (s : FormState) :
    fieldValuesUnchanged s (Baseline.runValidators rt s).1 ∧
    (Baseline.runValidators rt s).1.modalOverlay = s.modalOverlay ∧
    (Baseline.runValidators rt s).1.successModal = s.successModal := by
  unfold fieldValuesUnchanged Baseline.runValidators
  by_cases hc : s.contactPhoneChecked <;>
    by_cases he : jsTrim s.email.value == "" <;>
      by_cases hp : jsTrim s.phoneInput.value == "" <;>
        simp [hc, he, hp, baseline_validateFieldCore_value]

theorem enhanced_runValidators_unchanged (rt : String → String → Bool) (s : FormState) :
    fieldValuesUnchanged s (Enhanced.runValidators rt s).1 ∧
    (Enhanced.runValidators rt s).1.modalOverlay = s.modalOverlay ∧
    (Enhanced.runValidators rt s).1.successModal = s.successModal := by
  unfold fieldValuesUnchanged Enhanced.runValidators
  by_cases hc : s.contactPhoneChecked <;>
    by_cases he : jsTrim s.email.value == "" <;>
      by_cases hp : jsTrim s.phoneInput.value == "" <;>
        simp [hc, he, hp, enhanced_validateFieldCore_value]

theorem baseline_successActions_spec (s : FormState) :
    (Baseline.successActions s).modalOverlay.display = "block" ∧
    (Baseline.successActions s).successModal.display = "block" ∧
    formIsReset (Baseline.successActions s) := by
  refine ⟨rfl, rfl, ?_⟩
  unfold formIsReset controlReset feedbackHidden Baseline.successActions
    Baseline.resetControl Baseline.resetFeedback
  simp [mem_classRemove_iff]

theorem enhanced_successActions_spec (s : FormState) :
    (Enhanced.successActions s).modalOverlay.display = "block" ∧
    (Enhanced.successActions s).successModal.display = "block" ∧
    formIsReset (Enhanced.successActions s) := by
  refine ⟨rfl, rfl, ?_⟩
  unfold formIsReset controlReset feedbackHidden Enhanced.successActions
    Enhanced.resetControl Enhanced.resetFeedback
  simp [mem_classRemove_iff]

theorem baseline_submitHandler_isValid (rt : String → String → Bool) (s : FormState) :
    (Baseline.submitHandler rt s).isValid = (Baseline.runValidators rt s).2 := rfl

theorem baseline_submitHandler_state (rt : String → String → Bool) (s : FormState) :
    (Baseline.submitHandler rt s).state =
      (if (Baseline.runValidators rt s).2 then
        Baseline.successActions (Baseline.runValidators rt s).1
       else (Baseline.runValidators rt s).1) := rfl

theorem enhanced_submitHandler_isValid (rt : String → String → Bool) (s : FormState) :
    (Enhanced.submitHandler rt s).isValid = (Enhanced.runValidators rt s).2 := rfl

theorem enhanced_submitHandler_state (rt : String → String → Bool) (s : FormState) :
    (Enhanced.submitHandler rt s).state =
      (if (Enhanced.runValidators rt s).2 then
        Enhanced.successActions (Enhanced.runValidators rt s).1
       else Enhanced.failureActions (Enhanced.runValidators rt s).1) := rfl

theorem submitVerdict_eq_true_iff (rt : String → String → Bool) (s : FormState) :
    submitVerdict rt s = true ↔
      (jsTrim s.firstName.value ≠ "" ∧ jsTrim s.lastName.value ≠ "" ∧
       jsTrim s.email.value ≠ "" ∧ matchesEmailPattern s.email.value = true ∧
       jsTrim s.messageSubject.value ≠ "" ∧ jsTrim s.message.value ≠ "" ∧
       (s.contactPhoneChecked = true →
         jsTrim s.phoneInput.value ≠ "" ∧
         ∃ p, s.countryCode.dataPattern = some p ∧ p ≠ "" ∧
              rt p (stripPhoneSeparators s.phoneInput.value) = true)) := by
  unfold submitVerdict textFieldsVerdict
  by_cases hc : s.contactPhoneChecked = true <;>
    by_cases he : jsTrim s.email.value = "" <;>
      by_cases hp : jsTrim s.phoneInput.value = "" <;>
        cases hd : s.countryCode.dataPattern <;>
          simp [hc, he, hp, hd] <;> tauto

theorem debounceInv_init : debounceInv debounceInit :=
  Or.inl rfl

theorem scrollStep_scroll_pending (st : DebounceState) (hv : debounceInv st) :
    (scrollStep st ScrollEvent.scroll).pendingTimers = [st.nextId] := by
  rcases hv with h | ⟨id, hp, hs⟩
  · cases ho : st.scrollTimeout <;> simp [scrollStep, clearScrollTimeout, h, ho]
  · simp [scrollStep, clearScrollTimeout, hp, hs]

theorem debounceInv_step (st : DebounceState) (hv : debounceInv st) (e : ScrollEvent) :
    debounceInv (scrollStep st e) := by
  cases e with
  | scroll =>
      exact Or.inr ⟨st.nextId, scrollStep_scroll_pending st hv, rfl⟩
  | fire id =>
      by_cases hm : id ∈ st.pendingTimers
      · rcases hv with h | ⟨id', hp, hs⟩
        · rw [h] at hm
          cases hm
        · rw [hp] at hm
          have : id = id' := by simpa using hm
          subst this
          left
          simp [scrollStep, hm, hp]
      · simpa [scrollStep, hm] using hv

theorem scrollRun_foldl_inv (st : DebounceState) (hv : debounceInv st)
    (events : List ScrollEvent) : debounceInv (events.foldl scrollStep st) := by
  induction events generalizing st with
  | nil => exact hv
  | cons e es ih => exact ih _ (debounceInv_step st hv e)

theorem scrollRun_inv (events : List ScrollEvent) : debounceInv (scrollRun events) :=
  scrollRun_foldl_inv debounceInit debounceInv_init events

theorem baseline_runValidators_firstName_invalid (rt : String → String → Bool)
    (s : FormState) (h : jsTrim s.firstName.value = "") :
    (Baseline.runValidators rt s).1.firstName.classes =
      classRemove (classAdd s.firstName.classes "is-invalid") "is-valid" ∧
    (Baseline.runValidators rt s).1.firstNameError.textContent =
      "Please provide your first name." ∧
    (Baseline.runValidators rt s).1.firstNameError.classes =
      classAdd s.firstNameError.classes "d-block" := by
  unfold Baseline.runValidators Baseline.validateFieldCore Baseline.fieldValidators
    applyErrorMessage
  by_cases hc : s.contactPhoneChecked <;>
    by_cases he : jsTrim s.email.value == "" <;>
      by_cases hp : jsTrim s.phoneInput.value == "" <;>
        simp [hc, he, hp, h]

/-- C1: a submit event shows the success modal and resets the form exactly
when every text field is non-blank, the email value matches the email
pattern, and — when the phone contact method is checked — the phone value
is non-blank and its separator-stripped form matches the regular expression
held by the selected country option's `data-pattern` attribute; otherwise
the submission is blocked and the form is left as it was. -/
theorem submit_success_iff_all_validators_pass (rt : String → String → Bool)
    (s : FormState) :
    ((Baseline.submitHandler rt s).isValid = true ↔
      (jsTrim s.firstName.value ≠ "" ∧ jsTrim s.lastName.value ≠ "" ∧
       jsTrim s.email.value ≠ "" ∧ matchesEmailPattern s.email.value = true ∧
       jsTrim s.messageSubject.value ≠ "" ∧ jsTrim s.message.value ≠ "" ∧
       (s.contactPhoneChecked = true →
         jsTrim s.phoneInput.value ≠ "" ∧
         ∃ p, s.countryCode.dataPattern = some p ∧ p ≠ "" ∧
              rt p (stripPhoneSeparators s.phoneInput.value) = true))) ∧
    ((Baseline.submitHandler rt s).isValid = true →
      ((Baseline.submitHandler rt s).state.modalOverlay.display = "block" ∧
       (Baseline.submitHandler rt s).state.successModal.display = "block" ∧
       formIsReset (Baseline.submitHandler rt s).state)) ∧
    ((Baseline.submitHandler rt s).isValid = false →
      ((Baseline.submitHandler rt s).state.modalOverlay.display = s.modalOverlay.display ∧
       (Baseline.submitHandler rt s).state.successModal.display = s.successModal.display ∧
       fieldValuesUnchanged s (Baseline.submitHandler rt s).state)) := by
  have hiff : (Baseline.submitHandler rt s).isValid = true ↔ submitVerdict rt s = true := by
    rw [baseline_submitHandler_isValid, baseline_runValidators_snd]
  refine ⟨hiff.trans (submitVerdict_eq_true_iff rt s), ?_, ?_⟩
  · intro h
    have hv : (Baseline.runValidators rt s).2 = true := by
      rwa [baseline_submitHandler_isValid] at h
    have hstate : (Baseline.submitHandler rt s).state =
        Baseline.successActions (Baseline.runValidators rt s).1 := by
      rw [baseline_submitHandler_state, hv]
      rfl
    rw [hstate]
    exact baseline_successActions_spec _
  · intro h
    have hv : (Baseline.runValidators rt s).2 = false := by
      rwa [baseline_submitHandler_isValid] at h
    have hstate : (Baseline.submitHandler rt s).state = (Baseline.runValidators rt s).1 := by
      rw [baseline_submitHandler_state, hv]
      rfl
    obtain ⟨hu, hm, hs'⟩ := baseline_runValidators_unchanged rt s
    rw [hstate]
    exact ⟨congrArg DomElem.display hm, congrArg DomElem.display hs', hu⟩

/-- C2: submitting while the first-name field is blank (empty or
whitespace-only) marks it invalid — the `is-invalid` class is added and the
inline error text is shown — and the success modal stays as it was. -/
theorem empty_first_name_blocks_success_modal (rt : String → String → Bool)
    (s : FormState) (h : jsTrim s.firstName.value = "") :
    "is-invalid" ∈ (Baseline.submitHandler rt s).state.firstName.classes ∧
    (Baseline.submitHandler rt s).state.firstNameError.textContent =
      "Please provide your first name." ∧
    "d-block" ∈ (Baseline.submitHandler rt s).state.firstNameError.classes ∧
    (Baseline.submitHandler rt s).state.successModal.display = s.successModal.display ∧
    (Baseline.submitHandler rt s).state.modalOverlay.display = s.modalOverlay.display := by
  have hv : (Baseline.runValidators rt s).2 = false := by
    cases hb : (Baseline.runValidators rt s).2
    · rfl
    · exfalso
      rw [baseline_runValidators_snd] at hb
      exact ((submitVerdict_eq_true_iff rt s).1 hb).1 h
  have hstate : (Baseline.submitHandler rt s).state = (Baseline.runValidators rt s).1 := by
    rw [baseline_submitHandler_state, hv]
    rfl
  obtain ⟨hcls, htext, hecls⟩ := baseline_runValidators_firstName_invalid rt s h
  obtain ⟨_, hm, hs'⟩ := baseline_runValidators_unchanged rt s
  rw [hstate]
  refine ⟨?_, htext, ?_, congrArg DomElem.display hs', congrArg DomElem.display hm⟩
  · rw [hcls, mem_classRemove_iff, mem_classAdd_iff]
    exact ⟨Or.inr rfl, by decide⟩
  · rw [hecls, mem_classAdd_iff]
    exact Or.inr rfl

/-- C3: both variants' submit listeners always call `preventDefault` and
`stopPropagation`, and a failed validation leaves every form control's value
and both modal displays untouched: an invalid submission is a no-op apart
from validation feedback. -/
theorem invalid_submission_is_noop (rt : String → String → Bool) (s : FormState) :
    (Baseline.submitHandler rt s).defaultPrevented = true ∧
    (Baseline.submitHandler rt s).propagationStopped = true ∧
    (Enhanced.submitHandler rt s).defaultPrevented = true ∧
    (Enhanced.submitHandler rt s).propagationStopped = true ∧
    ((Baseline.submitHandler rt s).isValid = false →
      (fieldValuesUnchanged s (Baseline.submitHandler rt s).state ∧
       (Baseline.submitHandler rt s).state.modalOverlay.display = s.modalOverlay.display ∧
       (Baseline.submitHandler rt s).state.successModal.display = s.successModal.display)) ∧
    ((Enhanced.submitHandler rt s).isValid = false →
      (fieldValuesUnchanged s (Enhanced.submitHandler rt s).state ∧
       (Enhanced.submitHandler rt s).state.modalOverlay.display = s.modalOverlay.display ∧
       (Enhanced.submitHandler rt s).state.successModal.display = s.successModal.display)) := by
  refine ⟨rfl, rfl, rfl, rfl, ?_, ?_⟩
  · intro h
    have hv : (Baseline.runValidators rt s).2 = false := by
      rwa [baseline_submitHandler_isValid] at h
    have hstate : (Baseline.submitHandler rt s).state = (Baseline.runValidators rt s).1 := by
      rw [baseline_submitHandler_state, hv]
      rfl
    obtain ⟨hu, hm, hs'⟩ := baseline_runValidators_unchanged rt s
    rw [hstate]
    exact ⟨hu, congrArg DomElem.display hm, congrArg DomElem.display hs'⟩
  · intro h
    have hv : (Enhanced.runValidators rt s).2 = false := by
      rwa [enhanced_submitHandler_isValid] at h
    have hstate : (Enhanced.submitHandler rt s).state =
        Enhanced.failureActions (Enhanced.runValidators rt s).1 := by
      rw [enhanced_submitHandler_state, hv]
      rfl
    obtain ⟨hu, hm, hs'⟩ := enhanced_runValidators_unchanged rt s
    rw [hstate]
    exact ⟨hu, congrArg DomElem.display hm, congrArg DomElem.display hs'⟩

/-- C4: with both elements present and a non-empty message, a rejecting
predicate makes `validateField` (either variant) write the message into the
error element, show it (`d-block`), mark the field `is-invalid` (dropping
`is-valid`) and return false; an accepting predicate drops `is-invalid`,
adds `is-valid`, hides the error element and returns true.  The verdict is
only returned — nothing else escapes the call. -/
theorem validateField_surfaces_failures_inline (f e : DomElem) (fn : String → Bool)
    (m : String) (hm : m ≠ "") :
    (fn f.value = false →
      ∃ f' e', Baseline.validateField (some f) (some e) fn (some m) =
          (some f', some e', false) ∧
        "is-invalid" ∈ f'.classes ∧ "is-valid" ∉ f'.classes ∧
        e'.textContent = m ∧ "d-block" ∈ e'.classes) ∧
    (fn f.value = true →
      ∃ f' e', Baseline.validateField (some f) (some e) fn (some m) =
          (some f', some e', true) ∧
        "is-invalid" ∉ f'.classes ∧ "is-valid" ∈ f'.classes ∧ "d-block" ∉ e'.classes) ∧
    (fn f.value = false →
      ∃ f' e', Enhanced.validateField (some f) (some e) fn (some m) =
          (some f', some e', false) ∧
        "is-invalid" ∈ f'.classes ∧ "is-valid" ∉ f'.classes ∧
        e'.textContent = m ∧ "d-block" ∈ e'.classes) ∧
    (fn f.value = true →
      ∃ f' e', Enhanced.validateField (some f) (some e) fn (some m) =
          (some f', some e', true) ∧
        "is-invalid" ∉ f'.classes ∧ "is-valid" ∈ f'.classes ∧ "d-block" ∉ e'.classes) := by
  refine ⟨fun h => ?_, fun h => ?_, fun h => ?_, fun h => ?_⟩
  · refine ⟨{ f with classes := classRemove (classAdd f.classes "is-invalid") "is-valid" },
            { e with textContent := m, classes := classAdd e.classes "d-block" },
            ?_, ?_, ?_, rfl, ?_⟩
    · unfold Baseline.validateField Baseline.validateFieldCore applyErrorMessage
      simp [h, hm]
    · rw [mem_classRemove_iff, mem_classAdd_iff]
      exact ⟨Or.inr rfl, by decide⟩
    · rw [mem_classRemove_iff]
      simp
    · rw [mem_classAdd_iff]
      exact Or.inr rfl
  · refine ⟨{ f with classes := classAdd (classRemove f.classes "is-invalid") "is-valid" },
            { e with classes := classRemove e.classes "d-block" }, ?_, ?_, ?_, ?_⟩
    · unfold Baseline.validateField Baseline.validateFieldCore
      simp [h]
    · rw [mem_classAdd_iff, mem_classRemove_iff]
      simp
    · rw [mem_classAdd_iff]
      exact Or.inr rfl
    · rw [mem_classRemove_iff]
      simp
  · refine ⟨{ f with
                classes := classRemove (classAdd f.classes "is-invalid") "is-valid",
                attrs := setAttr f.attrs "aria-invalid" "true" },
            { e with textContent := m, classes := classAdd e.classes "d-block" },
            ?_, ?_, ?_, rfl, ?_⟩
    · unfold Enhanced.validateField Enhanced.validateFieldCore applyErrorMessage
      simp [h, hm]
    · rw [mem_classRemove_iff, mem_classAdd_iff]
      exact ⟨Or.inr rfl, by decide⟩
    · rw [mem_classRemove_iff]
      simp
    · rw [mem_classAdd_iff]
      exact Or.inr rfl
  · refine ⟨{ f with
                classes := classAdd (classRemove f.classes "is-invalid") "is-valid",
                attrs := setAttr f.attrs "aria-invalid" "false" },
            { e with classes := classRemove e.classes "d-block" }, ?_, ?_, ?_, ?_⟩
    · unfold Enhanced.validateField Enhanced.validateFieldCore
      simp [h]
    · rw [mem_classAdd_iff, mem_classRemove_iff]
      simp
    · rw [mem_classAdd_iff]
      exact Or.inr rfl
    · rw [mem_classRemove_iff]
      simp

theorem validateField_surfaces_failures_inline_witness :
    ("msg" : String) ≠ "" ∧
    (∃ f' e', Baseline.validateField (some ({} : DomElem)) (some ({} : DomElem))
        (fun _ => false) (some "msg") = (some f', some e', false) ∧
      "is-invalid" ∈ f'.classes ∧ "is-valid" ∉ f'.classes ∧
      e'.textContent = "msg" ∧ "d-block" ∈ e'.classes) :=
  ⟨by decide,
   (validateField_surfaces_failures_inline {} {} (fun _ => false) "msg" (by decide)).1 rfl⟩

/-- C5: a change event with the phone option checked shows the phone group
and makes the phone input required; a change event with the email option
checked hides the group, drops the requirement and clears the phone field's
validation state — in both variants. -/
theorem contact_method_controls_phone_requirement (ui : PhoneUIState) :
    (Baseline.contactPhoneChange true ui).phoneGroup.display = "block" ∧
    (Baseline.contactPhoneChange true ui).phoneInput.required = true ∧
    (Baseline.contactEmailChange true ui).phoneGroup.display = "none" ∧
    (Baseline.contactEmailChange true ui).phoneInput.required = false ∧
    "is-invalid" ∉ (Baseline.contactEmailChange true ui).phoneInput.classes ∧
    "is-valid" ∉ (Baseline.contactEmailChange true ui).phoneInput.classes ∧
    "d-block" ∉ (Baseline.contactEmailChange true ui).phoneError.classes ∧
    (Enhanced.contactPhoneChange true ui).phoneGroup.display = "block" ∧
    (Enhanced.contactPhoneChange true ui).phoneInput.required = true ∧
    (Enhanced.contactEmailChange true ui).phoneGroup.display = "none" ∧
    (Enhanced.contactEmailChange true ui).phoneInput.required = false ∧
    "is-invalid" ∉ (Enhanced.contactEmailChange true ui).phoneInput.classes ∧
    "is-valid" ∉ (Enhanced.contactEmailChange true ui).phoneInput.classes ∧
    "d-block" ∉ (Enhanced.contactEmailChange true ui).phoneError.classes := by
  unfold Baseline.contactPhoneChange Baseline.contactEmailChange Baseline.clearValidation
    Enhanced.contactPhoneChange Enhanced.contactEmailChange Enhanced.clearValidation
  simp [mem_classRemove_iff]

/-- C6: the baseline and the accessibility-enhanced variants implement the
same validation logic: `isValidEmail`, `validatePhoneNumber`, the five
`fieldValidators` predicates and the verdict of `validateField` agree on
every input, so both submit listeners accept exactly the same form
contents. -/
theorem variants_validation_equivalent :
    (∀ email, Baseline.isValidEmail email = Enhanced.isValidEmail email) ∧
    (∀ (rt : String → String → Bool) phone sel,
       Baseline.validatePhoneNumber rt phone sel = Enhanced.validatePhoneNumber rt phone sel) ∧
    (∀ v, Baseline.fieldValidators.firstName.validator v =
       Enhanced.fieldValidators.firstName.validator v) ∧
    (∀ v, Baseline.fieldValidators.lastName.validator v =
       Enhanced.fieldValidators.lastName.validator v) ∧
    (∀ v, Baseline.fieldValidators.email.validator v =
       Enhanced.fieldValidators.email.validator v) ∧
    (∀ v, Baseline.fieldValidators.messageSubject.validator v =
       Enhanced.fieldValidators.messageSubject.validator v) ∧
    (∀ v, Baseline.fieldValidators.message.validator v =
       Enhanced.fieldValidators.message.validator v) ∧
    (∀ f e fn m, (Baseline.validateField f e fn m).2.2 =
       (Enhanced.validateField f e fn m).2.2) ∧
    (∀ (rt : String → String → Bool) s,
       (Baseline.submitHandler rt s).isValid = (Enhanced.submitHandler rt s).isValid) := by
  refine ⟨fun _ => rfl, fun _ _ _ => rfl, fun _ => rfl, fun _ => rfl, fun _ => rfl,
          fun _ => rfl, fun _ => rfl, ?_, ?_⟩
  · intro f e fn m
    cases f with
    | none => cases e <;> rfl
    | some f' =>
      cases e with
      | none => rfl
      | some e' =>
          show (Baseline.validateFieldCore f' e' fn m).2.2 =
            (Enhanced.validateFieldCore f' e' fn m).2.2
          rw [baseline_validateFieldCore_verdict, enhanced_validateFieldCore_verdict]
  · intro rt s
    rw [baseline_submitHandler_isValid, enhanced_submitHandler_isValid,
        baseline_runValidators_snd, enhanced_runValidators_snd]

/-- C7: the debounced scroll handling keeps at most one nav-link update
pending at any time, and every scroll event first clears the pending timer
before scheduling its own, so exactly the newly scheduled update is pending
right after a scroll event. -/
theorem scroll_debounce_at_most_one_pending (events : List ScrollEvent) :
    (scrollRun events).pendingTimers.length ≤ 1 ∧
    (scrollRun (events ++ [ScrollEvent.scroll])).pendingTimers =
      [(scrollRun events).nextId] := by
  have hv := scrollRun_inv events
  constructor
  · rcases hv with h | ⟨id, hp, _⟩
    · rw [h]
      exact Nat.zero_le 1
    · rw [hp]
      exact le_refl 1
  · rw [scrollRun, List.foldl_append]
    exact scrollStep_scroll_pending _ hv

/-- C8: after the phone `input` handler — including the `input` event the
`paste` handler dispatches at its end — the phone field's value holds only
digit and whitespace characters, in both variants. -/
theorem phone_input_digits_whitespace_invariant :
    (∀ v : String, ∀ c ∈ (Baseline.phoneInputHandler v).toList,
       (c.isDigit || isJsWhitespace c) = true) ∧
    (∀ (cur : String) (selStart selEnd : Nat) (p : String),
       ∀ c ∈ (Baseline.phonePasteHandler cur selStart selEnd p).toList,
       (c.isDigit || isJsWhitespace c) = true) ∧
    (∀ v : String, ∀ c ∈ (Enhanced.phoneInputHandler v).toList,
       (c.isDigit || isJsWhitespace c) = true) ∧
    (∀ (cur : String) (selStart selEnd : Nat) (p : String),
       ∀ c ∈ (Enhanced.phonePasteHandler cur selStart selEnd p).toList,
       (c.isDigit || isJsWhitespace c) = true) := by
  have key : ∀ v : String, ∀ c ∈ (cleanPhoneText v).toList,
      (c.isDigit || isJsWhitespace c) = true := by
    intro v c hc
    have hmem : c ∈ v.toList.filter (fun c => c.isDigit || isJsWhitespace c) := hc
    exact (List.mem_filter.1 hmem).2
  exact ⟨key, fun cur selStart selEnd p => key _, key, fun cur selStart selEnd p => key _⟩

/-- C9: when the selected country option carries no `data-pattern`
attribute, `validatePhoneNumber` rejects every phone number (both
variants), and a submission with the phone contact method checked cannot
succeed: the flag is false and the success modal stays as it was. -/
theorem missing_data_pattern_blocks_phone (rt : String → String → Bool)
    (phone : String) (sel : SelectElement) (s : FormState)
    (hsel : sel.dataPattern = none) (hs : s.countryCode.dataPattern = none)
    (hchecked : s.contactPhoneChecked = true) :
    Baseline.validatePhoneNumber rt phone sel = false ∧
    Enhanced.validatePhoneNumber rt phone sel = false ∧
    (Baseline.submitHandler rt s).isValid = false ∧
    (Enhanced.submitHandler rt s).isValid = false ∧
    (Baseline.submitHandler rt s).state.successModal.display = s.successModal.display ∧
    (Enhanced.submitHandler rt s).state.successModal.display = s.successModal.display := by
  have hverdict : submitVerdict rt s = false := by
    cases hvb : submitVerdict rt s
    · rfl
    · exfalso
      obtain ⟨-, -, -, -, -, -, hph⟩ := (submitVerdict_eq_true_iff rt s).1 hvb
      obtain ⟨-, p, hp, -, -⟩ := hph hchecked
      rw [hs] at hp
      cases hp
  have hbv : (Baseline.runValidators rt s).2 = false := by
    rw [baseline_runValidators_snd]
    exact hverdict
  have hev : (Enhanced.runValidators rt s).2 = false := by
    rw [enhanced_runValidators_snd]
    exact hverdict
  refine ⟨?_, ?_, ?_, ?_, ?_, ?_⟩
  · unfold Baseline.validatePhoneNumber
    rw [hsel]
  · unfold Enhanced.validatePhoneNumber
    rw [hsel]
  · rw [baseline_submitHandler_isValid]
    exact hbv
  · rw [enhanced_submitHandler_isValid]
    exact hev
  · have hstate : (Baseline.submitHandler rt s).state = (Baseline.runValidators rt s).1 := by
      rw [baseline_submitHandler_state, hbv]
      rfl
    rw [hstate]
    exact congrArg DomElem.display (baseline_runValidators_unchanged rt s).2.2
  · have hstate : (Enhanced.submitHandler rt s).state =
        Enhanced.failureActions (Enhanced.runValidators rt s).1 := by
      rw [enhanced_submitHandler_state, hev]
      rfl
    rw [hstate]
    exact congrArg DomElem.display (enhanced_runValidators_unchanged rt s).2.2

theorem missing_data_pattern_blocks_phone_witness :
    ({ dataPattern := none } : SelectElement).dataPattern = none ∧
    sampleFormNoPattern.countryCode.dataPattern = none ∧
    sampleFormNoPattern.contactPhoneChecked = true ∧
    (Baseline.validatePhoneNumber sampleRegexAny "123" { dataPattern := none } = false ∧
     Enhanced.validatePhoneNumber sampleRegexAny "123" { dataPattern := none } = false ∧
     (Baseline.submitHandler sampleRegexAny sampleFormNoPattern).isValid = false ∧
     (Enhanced.submitHandler sampleRegexAny sampleFormNoPattern).isValid = false ∧
     (Baseline.submitHandler sampleRegexAny sampleFormNoPattern).state.successModal.display =
       sampleFormNoPattern.successModal.display ∧
     (Enhanced.submitHandler sampleRegexAny sampleFormNoPattern).state.successModal.display =
       sampleFormNoPattern.successModal.display) :=
  ⟨rfl, rfl, rfl,
   missing_data_pattern_blocks_phone sampleRegexAny "123" { dataPattern := none }
     sampleFormNoPattern rfl rfl rfl⟩

/-- C10: `validateField` (either variant) called with a missing field or
missing error element returns true and mutates nothing: such a field never
blocks submission. -/
theorem validateField_missing_elements_returns_true (field errorElement : Option DomElem)
    (fn : String → Bool) (msg : Option String)
    (h : field = none ∨ errorElement = none) :
    Baseline.validateField field errorElement fn msg = (field, errorElement, true) ∧
    Enhanced.validateField field errorElement fn msg = (field, errorElement, true) := by
  cases field with
  | none => cases errorElement <;> exact ⟨rfl, rfl⟩
  | some f =>
    cases errorElement with
    | none => exact ⟨rfl, rfl⟩
    | some e => rcases h with h | h <;> simp at h

theorem validateField_missing_elements_returns_true_witness :
    ((none : Option DomElem) = none ∨ (some ({} : DomElem) : Option DomElem) = none) ∧
    (Baseline.validateField none (some ({} : DomElem)) (fun _ => false) none =
       (none, some ({} : DomElem), true) ∧
     Enhanced.validateField none (some ({} : DomElem)) (fun _ => false) none =
       (none, some ({} : DomElem), true)) :=
  ⟨Or.inl rfl,
   validateField_missing_elements_returns_true none (some {}) (fun _ => false) none
     (Or.inl rfl)⟩

theorem empty_first_name_blocks_success_modal_witness :
    jsTrim sampleFormEmptyFirstName.firstName.value = "" ∧
    ("is-invalid" ∈
       (Baseline.submitHandler sampleRegexAny sampleFormEmptyFirstName).state.firstName.classes ∧
     (Baseline.submitHandler sampleRegexAny sampleFormEmptyFirstName).state.firstNameError.textContent =
       "Please provide your first name." ∧
     "d-block" ∈
       (Baseline.submitHandler sampleRegexAny sampleFormEmptyFirstName).state.firstNameError.classes ∧
     (Baseline.submitHandler sampleRegexAny sampleFormEmptyFirstName).state.successModal.display =
       sampleFormEmptyFirstName.successModal.display ∧
     (Baseline.submitHandler sampleRegexAny sampleFormEmptyFirstName).state.modalOverlay.display =
       sampleFormEmptyFirstName.modalOverlay.display) :=
  ⟨by decide,
   empty_first_name_blocks_success_modal sampleRegexAny sampleFormEmptyFirstName (by decide)⟩
